import Mathlib

/-
Verification of the expense-ledger logic of `budget_app.py` (EMCO Budget
Tracker).  The embedding models the `expenses` table as a list of stored rows,
`load_data` as the normalisation pipeline (SELECT ... ORDER BY id, dtype
coercion, recomputation of `reimbursed_amount`), the add-expense form,
`save_row`, `delete_row`, and the mask-based budget summary of section 10 of
the script.  Monetary amounts are modelled as rationals.
-/

namespace BudgetApp

/-- A stored row of the `expenses` table.  `charged_amount` is `none` when the
stored cell is NULL or not parseable as a number (pandas `to_numeric` with
coercion turns it into NaN); `out_of_pocket` is `none` when the stored cell is
NULL.  `reimbursed_amount` is written by `save_row` but never read back:
`load_data`'s SELECT list omits it. -/
structure DBRow where
  id : Nat
  date : String
  vendor : String
  description : String
  location : String
  recovery_type : String
  charged_amount : Option ℚ
  invoice : String
  chq_req : String
  out_of_pocket : Option Bool
  reimbursed_amount : ℚ
  deriving DecidableEq

/-- A record as produced by `load_data`: fully coerced, with the derived
`reimbursed_amount` column appended. -/
structure Record where
  id : Nat
  date : String
  vendor : String
  description : String
  location : String
  recovery_type : String
  charged_amount : ℚ
  invoice : String
  chq_req : String
  out_of_pocket : Bool
  reimbursed_amount : ℚ
  deriving DecidableEq

/-- The RAW column list of the script (section 3). -/
def RAW : List String :=
  ["id", "date", "vendor", "description", "location", "recovery_type",
   "charged_amount", "invoice", "chq_req", "out_of_pocket"]

/-- The column schema `load_data` returns in every case: `RAW` plus the
derived `reimbursed_amount`. -/
def SCHEMA : List String := RAW ++ ["reimbursed_amount"]

/-- Ordering used by `SELECT ... ORDER BY id`. -/
def idLeR (a b : DBRow) : Prop := a.id ≤ b.id

instance : DecidableRel idLeR := fun a b => Nat.decLe a.id b.id

instance : IsTotal DBRow idLeR := ⟨fun a b => Nat.le_total a.id b.id⟩

instance : IsTrans DBRow idLeR := ⟨fun _ _ _ => Nat.le_trans⟩

/-- Strict version of the id order, used to state uniqueness of the sorted
output when ids are distinct. -/
def idLtR (a b : DBRow) : Prop := a.id < b.id

instance : IsAntisymm DBRow idLtR :=
  ⟨fun _ _ h1 h2 => absurd h2 (Nat.lt_asymm h1)⟩

/-- Normalisation of one stored row, as `load_data` performs it column-wise:
`out_of_pocket` gets `fillna(False)` and a cast to bool, `charged_amount` gets
`to_numeric(errors="coerce").fillna(0.0)`, and `reimbursed_amount` is
recomputed as `np.where(out_of_pocket, 0.0, charged_amount)`. -/
def normRow (r : DBRow) : Record :=
  { id := r.id, date := r.date, vendor := r.vendor,
    description := r.description, location := r.location,
    recovery_type := r.recovery_type,
    charged_amount := r.charged_amount.getD 0,
    invoice := r.invoice, chq_req := r.chq_req,
    out_of_pocket := r.out_of_pocket.getD false,
    reimbursed_amount :=
      if r.out_of_pocket.getD false then 0 else r.charged_amount.getD 0 }

/-- The success path of `load_data`: rows come back ordered by id
(`ORDER BY id`; ids are unique, so any stable sort by id is the SQL result),
then each row is normalised and the derived column appended. -/
def loadRecords (store : List DBRow) : List Record :=
  (List.insertionSort idLeR store).map normRow

/-- Result of a full `load_data` call: the record set, whether `st.error` was
shown, and the column schema of the returned frame. -/
structure LoadResult where
  records : List Record
  errorShown : Bool
  columns : List String
  deriving DecidableEq

/-- Full `load_data`, error handling included: the argument is the outcome of
the `pd.read_sql` call.  On a database error the function catches it, shows
`st.error`, and returns an empty frame with the full schema; on success it
returns the normalised records under the same schema. -/
def load_data (res : Except String (List DBRow)) : LoadResult :=
  match res with
  | Except.error _ => { records := [], errorShown := true, columns := SCHEMA }
  | Except.ok rows =>
      { records := loadRecords rows, errorShown := false, columns := SCHEMA }

/-- Fields collected by the add-expense form (section 8 of the script). -/
structure FormInput where
  date : String
  vendor : String
  description : String
  location : String
  recovery_type : String
  charged_amount : ℚ
  out_of_pocket : Bool
  invoice : String
  chq_req : String
  deriving DecidableEq

/-- The auto-computed reimbursement shown by the form:
`reimb = 0.0 if oop else amt`. -/
def reimb (oop : Bool) (amt : ℚ) : ℚ := if oop then 0 else amt

/-- `save_row`: INSERT of one row into the `expenses` table.  The database
appends the row; the id is assigned by the store. -/
def save_row (store : List DBRow) (row : DBRow) : List DBRow := store ++ [row]

/-- The row the form submission passes to `save_row`, with
`reimbursed_amount` set to the form's auto-computed `reimb`. -/
def formRow (fid : Nat) (f : FormInput) : DBRow :=
  { id := fid, date := f.date, vendor := f.vendor,
    description := f.description, location := f.location,
    recovery_type := f.recovery_type,
    charged_amount := some f.charged_amount,
    invoice := f.invoice, chq_req := f.chq_req,
    out_of_pocket := some f.out_of_pocket,
    reimbursed_amount := reimb f.out_of_pocket f.charged_amount }

/-- addRecord of the spec: form submission followed by `save_row`. -/
def addRecord (store : List DBRow) (fid : Nat) (f : FormInput) : List DBRow :=
  save_row store (formRow fid f)

/-- `delete_row`: `DELETE FROM expenses WHERE id = :rid` removes every stored
row whose id matches. -/
def delete_row (store : List DBRow) (rid : Nat) : List DBRow :=
  store.filter (fun r => r.id != rid)

/-- Possible observable outcomes of a delete call, as the spec describes
them: normal completion with the resulting store, or a signalled
`NotFoundError`. -/
inductive DeleteOutcome where
  | ok (store : List DBRow) : DeleteOutcome
  | notFound : DeleteOutcome
  deriving DecidableEq

/-- Observable outcome of `delete_row`: the SQL DELETE completes normally
whether or not any row matched; the script checks no row count and raises
nothing, so the outcome is always normal completion. -/
def delete_rowOutcome (store : List DBRow) (rid : Nat) : DeleteOutcome :=
  DeleteOutcome.ok (delete_row store rid)

/-- The boolean mask of section 10: `mask = df["out_of_pocket"]`. -/
def mask (r : Record) : Bool := r.out_of_pocket

/-- `spent_oop = df.loc[mask, "charged_amount"].sum()`. -/
def spent_oop (recs : List Record) : ℚ :=
  ((recs.filter mask).map Record.charged_amount).sum

/-- `spent_diff = (df.loc[~mask, "charged_amount"] - df.loc[~mask,
"reimbursed_amount"]).sum()`. -/
def spent_diff (recs : List Record) : ℚ :=
  ((recs.filter (fun r => !mask r)).map
    (fun r => r.charged_amount - r.reimbursed_amount)).sum

/-- `spent_tot = spent_oop + spent_diff`. -/
def spent_tot (recs : List Record) : ℚ := spent_oop recs + spent_diff recs

/-- The fixed budget header of the script. -/
def BUDGET : ℚ := 400000

/-- `remaining = BUDGET - spent_tot`, with the budget total as a parameter
(the script instantiates it with the fixed `BUDGET`). -/
def remaining (budget : ℚ) (recs : List Record) : ℚ := budget - spent_tot recs

/-- Per-record contribution to the spent total: a one-pass reformulation of
the mask-based summary, used to give the summary formula independent
content. -/
def contribution (r : Record) : ℚ :=
  if r.out_of_pocket then r.charged_amount
  else r.charged_amount - r.reimbursed_amount

/-- Sample stored row flagged out of pocket. -/
def exRowT : DBRow :=
  { id := 1, date := "2024-01-05", vendor := "Acme", description := "supplies",
    location := "HQ", recovery_type := "standard", charged_amount := some 500,
    invoice := "INV-1", chq_req := "CHQ-1", out_of_pocket := some true,
    reimbursed_amount := 0 }

/-- Sample stored row not flagged out of pocket. -/
def exRowF : DBRow :=
  { id := 2, date := "2024-02-10", vendor := "Globex", description := "repair",
    location := "Site B", recovery_type := "invoice",
    charged_amount := some 1000, invoice := "INV-2", chq_req := "CHQ-2",
    out_of_pocket := some false, reimbursed_amount := 1000 }

/-- Sample damaged stored row: the charged amount does not parse as a number
and the flag is NULL. -/
def exRowBad : DBRow :=
  { id := 3, date := "2024-03-15", vendor := "Initech", description := "misc",
    location := "HQ", recovery_type := "standard", charged_amount := none,
    invoice := "INV-3", chq_req := "CHQ-3", out_of_pocket := none,
    reimbursed_amount := 7 }

/-- Sample form submission. -/
def exForm : FormInput :=
  { date := "2024-04-01", vendor := "Hooli", description := "travel",
    location := "Site C", recovery_type := "standard", charged_amount := 250,
    out_of_pocket := false, invoice := "INV-4", chq_req := "CHQ-4" }

lemma loadRecords_perm (store : List DBRow) :
    (loadRecords store).Perm (store.map normRow) :=
  (List.perm_insertionSort idLeR store).map normRow

lemma spent_tot_cons (r : Record) (t : List Record) :
    spent_tot (r :: t) = contribution r + spent_tot t := by
  by_cases h : r.out_of_pocket <;>
    simp [spent_tot, spent_oop, spent_diff, mask, contribution,
      List.filter_cons, h] <;> ring

lemma spent_tot_eq_sum (recs : List Record) :
    spent_tot recs = (recs.map contribution).sum := by
  induction recs with
  | nil => simp [spent_tot, spent_oop, spent_diff]
  | cons r t ih => simp [spent_tot_cons, ih]

lemma spent_tot_perm {l₁ l₂ : List Record} (h : l₁.Perm l₂) :
    spent_tot l₁ = spent_tot l₂ := by
  rw [spent_tot_eq_sum, spent_tot_eq_sum]
  exact (h.map contribution).sum_eq

/-- C1: Rule A holds at both ends: the form's auto-computed reimbursement
(`reimb`, persisted by `save_row`) and the value `load_data` recomputes for
every record it returns are 0 when the out-of-pocket flag is set and the
charged amount otherwise. -/
theorem ruleA_everywhere :
    (∀ (oop : Bool) (amt : ℚ), reimb oop amt = if oop then 0 else amt) ∧
    ∀ (store : List DBRow), ∀ r ∈ loadRecords store,
      r.reimbursed_amount = if r.out_of_pocket then 0 else r.charged_amount := by
  refine ⟨fun _ _ => rfl, ?_⟩
  intro store r hr
  rcases List.mem_map.mp hr with ⟨row, _, rfl⟩
  rfl

/-- Witness for C1 at a concrete store and record. -/
theorem ruleA_everywhere_witness :
    (normRow exRowT).reimbursed_amount
      = if (normRow exRowT).out_of_pocket then 0
        else (normRow exRowT).charged_amount :=
  ruleA_everywhere.2 [exRowT] (normRow exRowT) (by decide)

/-- C2: the summary satisfies spent equal to the sum of charged amounts over
out-of-pocket records plus the sum of charged minus reimbursed over the
others, equivalently one pass of per-record contributions, and remaining is
exactly the budget total minus spent, purely in terms of the stored fields. -/
theorem summary_formula :
    ∀ (recs : List Record) (budget : ℚ),
      spent_tot recs
          = ((recs.filter (fun r => r.out_of_pocket)).map
              Record.charged_amount).sum
            + ((recs.filter (fun r => !r.out_of_pocket)).map
                (fun r => r.charged_amount - r.reimbursed_amount)).sum
        ∧ spent_tot recs = (recs.map contribution).sum
        ∧ remaining budget recs = budget - spent_tot recs := by
  intro recs budget
  exact ⟨rfl, spent_tot_eq_sum recs, rfl⟩

/-- C4: filtering by the out-of-pocket mask partitions the record sequence:
each of the two export views keeps the original order (it is a sublist), and
their concatenation is a permutation of the original records, so the merge
has no duplicates and no omissions. -/
theorem filter_partition :
    ∀ (recs : List Record),
      ((recs.filter (fun r => !mask r)).Sublist recs) ∧
      ((recs.filter mask).Sublist recs) ∧
      ((recs.filter (fun r => !mask r)) ++ (recs.filter mask)).Perm recs := by
  intro recs
  refine ⟨List.filter_sublist recs, List.filter_sublist recs, ?_⟩
  have h := List.filter_append_perm (fun r => !mask r) recs
  simpa [Bool.not_not] using h

/-- C7: the spent total is linear over the union of disjoint record sets. -/
theorem summarize_linear :
    ∀ (A B : List Record),
      (∀ a ∈ A, ∀ b ∈ B, a.id ≠ b.id) →
      spent_tot (A ++ B) = spent_tot A + spent_tot B := by
  intro A B _
  rw [spent_tot_eq_sum, spent_tot_eq_sum, spent_tot_eq_sum, List.map_append,
    List.sum_append]

/-- Witness for C7 on two concrete disjoint singleton record sets. -/
theorem summarize_linear_witness :
    spent_tot ([normRow exRowT] ++ [normRow exRowF])
      = spent_tot [normRow exRowT] + spent_tot [normRow exRowF] :=
  summarize_linear [normRow exRowT] [normRow exRowF] (by decide)

/-- C8: when the read of the expenses store fails, `load_data` shows an
error and returns an empty record set with the full column schema (RAW plus
`reimbursed_amount`) instead of propagating the exception. -/
theorem load_data_db_error :
    ∀ (e : String),
      load_data (Except.error e)
        = { records := [], errorShown := true,
            columns := RAW ++ ["reimbursed_amount"] } :=
  fun _ => rfl

/-- C9: a stored row whose charged amount does not parse as a number is kept
by `load_data` with its charged amount coerced to zero; no row is rejected
and nothing is raised. -/
theorem malformed_coerced_to_zero :
    ∀ (store : List DBRow) (row : DBRow),
      row ∈ store → row.charged_amount = none →
      normRow row ∈ loadRecords store ∧
      (normRow row).charged_amount = 0 ∧
      (loadRecords store).length = store.length := by
  intro store row hmem hnone
  refine ⟨?_, ?_, ?_⟩
  · exact (loadRecords_perm store).mem_iff.mpr
      (List.mem_map_of_mem normRow hmem)
  · simp [normRow, hnone]
  · rw [(loadRecords_perm store).length_eq, List.length_map]

/-- Witness for C9 at a concrete damaged row. -/
theorem malformed_coerced_to_zero_witness :
    normRow exRowBad ∈ loadRecords [exRowT, exRowBad] ∧
    (normRow exRowBad).charged_amount = 0 ∧
    (loadRecords [exRowT, exRowBad]).length
      = ([exRowT, exRowBad] : List DBRow).length :=
  malformed_coerced_to_zero [exRowT, exRowBad] exRowBad (by decide) (by decide)

/-- C10: on any `load_data` output the spent total reduces to the sum of
charged amounts over out-of-pocket records (the non-out-of-pocket term is
identically zero because the reimbursed column is recomputed), and the
reimbursed amounts persisted in the store never influence the summary. -/
theorem stored_reimbursed_irrelevant :
    ∀ (store : List DBRow),
      spent_tot (loadRecords store)
        = (((loadRecords store).filter mask).map Record.charged_amount).sum ∧
      ∀ (f : DBRow → ℚ),
        spent_tot (loadRecords
            (store.map (fun r => { r with reimbursed_amount := f r })))
          = spent_tot (loadRecords store) := by
  intro store
  constructor
  · have hz : spent_diff (loadRecords store) = 0 := by
      apply List.sum_eq_zero
      intro x hx
      rcases List.mem_map.mp hx with ⟨r, hr, rfl⟩
      rcases List.mem_filter.mp hr with ⟨hmem, hflag⟩
      rcases List.mem_map.mp hmem with ⟨row, _, rfl⟩
      simp only [mask, normRow, Bool.not_eq_true'] at hflag
      simp [normRow, hflag]
    rw [spent_tot, hz, add_zero]
    rfl
  · intro f
    rw [spent_tot_perm (loadRecords_perm
        (store.map (fun r => { r with reimbursed_amount := f r }))),
      spent_tot_perm (loadRecords_perm store), List.map_map]
    have hcomp :
        normRow ∘ (fun r => { r with reimbursed_amount := f r }) = normRow :=
      funext fun _ => rfl
    rw [hcomp]

/-- Counterexample for C6 as stated: deleting an id absent from the store
completes normally; no NotFoundError is signalled. -/
theorem delete_absent_counterexample :
    (2 ∉ ([exRowT].map DBRow.id)) ∧
    delete_rowOutcome [exRowT] 2 ≠ DeleteOutcome.notFound := by decide

/-- C6 amended: deleting an id absent from the store leaves the store
unchanged and completes normally, with no error of any kind signalled or
surfaced. -/
theorem delete_absent_noop :
    ∀ (store : List DBRow) (rid : Nat),
      rid ∉ store.map DBRow.id →
      delete_row store rid = store ∧
      delete_rowOutcome store rid = DeleteOutcome.ok store := by
  intro store rid h
  have hself : delete_row store rid = store := by
    apply List.filter_eq_self.mpr
    intro r hr
    simp only [bne_iff_ne, ne_eq]
    intro heq
    exact h (heq ▸ List.mem_map_of_mem DBRow.id hr)
  exact ⟨hself, by simp [delete_rowOutcome, hself]⟩

/-- Witness for the amended C6 at a concrete store and absent id. -/
theorem delete_absent_noop_witness :
    delete_row [exRowT] 2 = [exRowT] ∧
    delete_rowOutcome [exRowT] 2 = DeleteOutcome.ok [exRowT] :=
  delete_absent_noop [exRowT] 2 (by decide)

/-- C3: a form submission followed by a fresh load contains a record whose
fields equal the submitted fields, with the derived reimbursed amount; the
value persisted at write time coincides with the value recomputed at read
time. -/
theorem add_roundtrip :
    ∀ (store : List DBRow) (fid : Nat) (f : FormInput),
      0 ≤ f.charged_amount →
      ∃ r ∈ loadRecords (addRecord store fid f),
        r.id = fid ∧ r.date = f.date ∧ r.vendor = f.vendor ∧
        r.description = f.description ∧ r.location = f.location ∧
        r.recovery_type = f.recovery_type ∧
        r.charged_amount = f.charged_amount ∧ r.invoice = f.invoice ∧
        r.chq_req = f.chq_req ∧ r.out_of_pocket = f.out_of_pocket ∧
        r.reimbursed_amount = (formRow fid f).reimbursed_amount := by
  intro store fid f _
  refine ⟨normRow (formRow fid f), ?_, ?_⟩
  · apply (loadRecords_perm (addRecord store fid f)).mem_iff.mpr
    exact List.mem_map_of_mem normRow (by simp [addRecord, save_row])
  · exact ⟨rfl, rfl, rfl, rfl, rfl, rfl, rfl, rfl, rfl, rfl, rfl⟩

/-- Witness for C3 at a concrete store and submission. -/
theorem add_roundtrip_witness :
    ∃ r ∈ loadRecords (addRecord [exRowT] 5 exForm),
      r.id = 5 ∧ r.date = exForm.date ∧ r.vendor = exForm.vendor ∧
      r.description = exForm.description ∧ r.location = exForm.location ∧
      r.recovery_type = exForm.recovery_type ∧
      r.charged_amount = exForm.charged_amount ∧ r.invoice = exForm.invoice ∧
      r.chq_req = exForm.chq_req ∧ r.out_of_pocket = exForm.out_of_pocket ∧
      r.reimbursed_amount = (formRow 5 exForm).reimbursed_amount :=
  add_roundtrip [exRowT] 5 exForm (by decide)

lemma pairwise_lt_of_le_nodup {l : List DBRow}
    (hs : List.Pairwise idLeR l) (hn : (l.map DBRow.id).Nodup) :
    List.Pairwise idLtR l := by
  have hn' : List.Pairwise (fun a b : DBRow => a.id ≠ b.id) l :=
    List.pairwise_map.mp hn
  exact (hs.and hn').imp (fun h => Nat.lt_of_le_of_ne h.1 h.2)

lemma insertionSort_filter_comm (store : List DBRow) (p : DBRow → Bool)
    (hn : (store.map DBRow.id).Nodup) :
    List.insertionSort idLeR (store.filter p)
      = (List.insertionSort idLeR store).filter p := by
  have hperm : (List.insertionSort idLeR (store.filter p)).Perm
      ((List.insertionSort idLeR store).filter p) :=
    (List.perm_insertionSort idLeR (store.filter p)).trans
      ((List.perm_insertionSort idLeR store).filter p).symm
  have hs₁ : List.Pairwise idLeR (List.insertionSort idLeR (store.filter p)) :=
    List.sorted_insertionSort idLeR (store.filter p)
  have hs₂ : List.Pairwise idLeR
      ((List.insertionSort idLeR store).filter p) :=
    List.Pairwise.sublist (List.filter_sublist _)
      (List.sorted_insertionSort idLeR store)
  have hn₁ : ((List.insertionSort idLeR (store.filter p)).map
      DBRow.id).Nodup := by
    apply (((List.perm_insertionSort idLeR
        (store.filter p)).map DBRow.id).nodup_iff).mpr
    exact List.Nodup.sublist (List.Sublist.map DBRow.id
      (List.filter_sublist store)) hn
  have hn₂ : (((List.insertionSort idLeR store).filter p).map
      DBRow.id).Nodup := by
    apply List.Nodup.sublist (List.Sublist.map DBRow.id
      (List.filter_sublist _))
    exact (((List.perm_insertionSort idLeR store).map
      DBRow.id).nodup_iff).mpr hn
  exact List.eq_of_perm_of_sorted hperm
    (pairwise_lt_of_le_nodup hs₁ hn₁) (pairwise_lt_of_le_nodup hs₂ hn₂)

/-- C5: with distinct stored ids, deleting a present id and reloading yields
exactly the previous listing with the records of that id removed: every other
record is unchanged and the id-ascending order is preserved. -/
theorem delete_then_list :
    ∀ (store : List DBRow) (rid : Nat),
      (store.map DBRow.id).Nodup →
      rid ∈ store.map DBRow.id →
      loadRecords (delete_row store rid)
          = (loadRecords store).filter (fun r => r.id != rid) ∧
      ∀ r ∈ loadRecords (delete_row store rid), r.id ≠ rid := by
  intro store rid hn _
  have hmain : loadRecords (delete_row store rid)
      = (loadRecords store).filter (fun r => r.id != rid) := by
    unfold loadRecords delete_row
    rw [insertionSort_filter_comm store _ hn, List.filter_map]
    rfl
  refine ⟨hmain, ?_⟩
  intro r hr
  rw [hmain] at hr
  simpa [bne_iff_ne] using (List.mem_filter.mp hr).2

/-- Witness for C5 at a concrete two-row store. -/
theorem delete_then_list_witness :
    (loadRecords (delete_row [exRowF, exRowT] 1)
        = (loadRecords [exRowF, exRowT]).filter (fun r => r.id != 1)) ∧
    ∀ r ∈ loadRecords (delete_row [exRowF, exRowT] 1), r.id ≠ 1 :=
  delete_then_list [exRowF, exRowT] 1 (by decide) (by decide)

end BudgetApp
